import Mathlib

/-!
Shallow embedding of `smartcaller_backend.py` (the Smart Caller lead
classification and scoring core).

Modelling conventions:
* Python strings are embedded as lists of Unicode code points (`Str := List Nat`);
  `str` converts a Lean string literal to this representation.
* Python `str.lower()` is embedded as an ASCII lowering (`A`-`Z` mapped to
  `a`-`z`, everything else unchanged), which agrees with Python on all the
  ASCII keyword tables and inputs used below.
* `datetime.now(timezone.utc)` is embedded as an explicit parameter `now`
  (seconds since the proleptic-Gregorian epoch used by `daysFromCivil`).
* `random.uniform(0.22, 0.35)` in `summarize` is embedded as an explicit
  parameter `u : ℚ` (the drawn value); floats are modelled as rationals.
* The external `tldextract` library is modelled by `tld_domain` with a
  snapshot of common public suffixes (enough for the domains considered here).
* The regexes of `SENIORITY_MAP` are of the shape `\b(alt1|alt2|...)\b` with
  literal alternatives; they are embedded as the list of their alternatives,
  searched with word boundaries by `reSearch`.  The keys of `PERSONA_MAP` are
  kept as raw regex strings: the code never uses them (its persona loop
  searches the persona *label* in the lower-cased title, see `parse_title`).
-/

namespace SmartCaller

/-- Python strings as lists of Unicode code points. -/
abbrev Str := List Nat

/-- Conversion from a Lean string literal to the embedded representation. -/
def str (s : String) : Str := s.data.map Char.toNat

/-- ASCII lowering of one code point (model of `str.lower` per character). -/
def lowerC (c : Nat) : Nat := if 65 ≤ c ∧ c ≤ 90 then c + 32 else c

/-- ASCII raising of one code point (used by `capitalizeStr`). -/
def upperC (c : Nat) : Nat := if 97 ≤ c ∧ c ≤ 122 then c - 32 else c

/-- Model of Python `str.lower()`. -/
def lower (s : Str) : Str := s.map lowerC

/-- Whitespace code points removed by Python `str.strip()` (ASCII model). -/
def isSpace (c : Nat) : Bool := c == 32 || c == 9 || c == 10 || c == 13 || c == 11 || c == 12

/-- Model of Python `str.strip()`. -/
def stripStr (s : Str) : Str := ((s.dropWhile isSpace).reverse.dropWhile isSpace).reverse

/-- Model of Python `str.capitalize()`: first character raised, rest lowered. -/
def capitalizeStr : Str → Str
  | [] => []
  | c :: r => upperC c :: r.map lowerC

/-- Does the second list start with the first one? -/
def startsW : Str → Str → Bool
  | [], _ => true
  | _ :: _, [] => false
  | x :: xs, y :: ys => x == y && startsW xs ys

/-- Model of Python substring containment (`needle in hay`). -/
def containsSub (n : Str) : Str → Bool
  | [] => n.isEmpty
  | c :: rest => startsW n (c :: rest) || containsSub n rest

/-- If the first list is a prefix of the second, return the remaining suffix. -/
def dropMatch : Str → Str → Option Str
  | [], rest => some rest
  | _ :: _, [] => none
  | x :: xs, y :: ys => if x == y then dropMatch xs ys else none

/-- Word characters of the regex `\b` boundary (ASCII model of `\w`). -/
def isWordChar (c : Nat) : Bool :=
  (48 ≤ c && c ≤ 57) || (65 ≤ c && c ≤ 90) || (97 ≤ c && c ≤ 122) || c == 95

/-- The position right after a match is a word boundary. -/
def afterOK : Str → Bool
  | [] => true
  | c :: _ => !isWordChar c

/-- The position right before a match is a word boundary. -/
def okBefore : Option Nat → Bool
  | none => true
  | some p => !isWordChar p

/-- Does the (word-starting, word-ending) literal `alt` occur at the head of
the text with word boundaries on both sides? -/
def wbAt (alt t : Str) : Bool :=
  match dropMatch alt t with
  | some rest => afterOK rest
  | none => false

/-- Scan the text for a word-bounded occurrence of `alt`; `prev` is the code
point right before the current position (if any). -/
def wbSearchAux (alt : Str) (prev : Option Nat) : Str → Bool
  | [] => okBefore prev && wbAt alt []
  | c :: rest => (okBefore prev && wbAt alt (c :: rest)) || wbSearchAux alt (some c) rest

/-- Model of `re.search` for a pattern `\b(alt1|alt2|...)\b` with literal
alternatives, as a boolean. -/
def reSearch (alts : List Str) (t : Str) : Bool :=
  alts.any (fun a => wbSearchAux a none t)

/-- `TARGET_PERSONAS` with the default environment value `CEO,CFO,COO,Marketing,Sales`. -/
def TARGET_PERSONAS : List String := ["CEO", "CFO", "COO", "Marketing", "Sales"]

/-- `PRIORITY_COUNTRIES` with the default environment value `FR,BE,CH`. -/
def PRIORITY_COUNTRIES : List String := ["FR", "BE", "CH"]

/-- `FREE_EMAIL_DOMAINS`. -/
def FREE_EMAIL_DOMAINS : List Str :=
  [str "gmail.com", str "yahoo.com", str "hotmail.com", str "outlook.com",
   str "live.com", str "icloud.com", str "proton.me", str "protonmail.com"]

/-- `SENIORITY_MAP`: each regex key `\b(a|b|...)\b` is embedded as the list of
its literal alternatives (with `co-?founder` expanded to both spellings),
paired with its `(label, score)` value, in insertion order. -/
def SENIORITY_MAP : List (List Str × String × Int) :=
  [([str "owner", str "founder", str "co-founder", str "cofounder", str "partner", str "principal"],
    "exec", 3),
   ([str "ceo", str "cto", str "cfo", str "coo", str "cmo", str "vp", str "vice president", str "head of"],
    "exec", 3),
   ([str "director", str "director of", str "directeur", str "directrice"],
    "director", 2),
   ([str "manager", str "lead", str "responsable", str "chef de"],
    "manager", 1),
   ([str "intern", str "stagiaire", str "assistant", str "junior"],
    "junior", 0)]

/-- `PERSONA_MAP`: regex key (kept verbatim; never used by the code, whose
persona loop searches the label) paired with the persona label, in insertion
order. -/
def PERSONA_MAP : List (String × String) :=
  [(r"\b(cfo|finance|accounting|comptable|daf)\b", "CFO"),
   (r"\b(coo|ops|operation|logistics|logistique|supply)\b", "COO"),
   (r"\b(cmo|marketing|growth|demand gen|acquisition)\b", "Marketing"),
   (r"\b(cto|tech|developer|engineer|it|devops|sre)\b", "Tech"),
   (r"\b(ceo|founder|owner|pdg|gérant)\b", "CEO"),
   (r"\b(sales|commercial|account executive|ae|business developer|bdm)\b", "Sales"),
   (r"\b(customer success|cs|support client|success manager)\b", "Customer Success"),
   (r"\b(product|pm|product manager)\b", "Product"),
   (r"\b(data|analytics|bi|data scientist|data engineer)\b", "Data"),
   (r"\b(security|secops|ciso|iso 27001)\b", "Security"),
   (r"\b(legal|juridique|avocat|counsel)\b", "Legal"),
   (r"\b(hr|talent|recruit|rh|recruteur|recrutement)\b", "HR"),
   (r"\b(purchasing|achat|procurement|acheteur)\b", "Procurement")]

/-- `INTENT_KEYWORDS["demo"]`. -/
def DEMO_KW : List Str :=
  [str "demo", str "démo", str "book a call", str "book a demo", str "rdv",
   str "call", str "meeting", str "schedule", str "contact me",
   str "contactez-moi", str "prise de rendez-vous", str "essai gratuit", str "trial"]

/-- `INTENT_KEYWORDS["resource"]`. -/
def RESOURCE_KW : List Str :=
  [str "ebook", str "guide", str "checklist", str "whitepaper", str "webinar",
   str "replay", str "ressource", str "lead magnet", str "template"]

/-- `URGENCY_KW`. -/
def URGENCY_KW : List Str :=
  [str "urgent", str "asap", str "dès que possible", str "rapidement",
   str "au plus vite", str "now", str "this week", str "ce jour"]

/-- `SOURCE_WEIGHTS`. -/
def SOURCE_WEIGHTS : List (Str × Int) :=
  [(str "meta", 6), (str "facebook", 6), (str "instagram", 6),
   (str "google", 7), (str "adwords", 7), (str "gads", 7),
   (str "linkedin", 5), (str "typeform", 4), (str "webflow", 3)]

/-- `COUNTRY_PREFIX` in insertion order. -/
def COUNTRY_PREFIX : List (String × Str) :=
  [("FR", str "+33"), ("BE", str "+32"), ("CH", str "+41"), ("ES", str "+34"),
   ("IT", str "+39"), ("DE", str "+49"), ("UK", str "+44"), ("US", str "+1")]

/-- `parse_title`.  The seniority loop searches the regex key (embedded as
word-bounded alternatives); the persona loop searches `re.search(p, t)` where
`p` is the persona *label* (the loop's value variable), exactly as the code
does — the labels are literal text, so this is a substring search. -/
def parse_title (title : Str) : String × Int × String :=
  let t := lower title
  let sen : String × Int :=
    match SENIORITY_MAP.find? (fun e => reSearch e.1 t) with
    | some e => e.2
    | none => ("other", 0)
  let persona : String :=
    match PERSONA_MAP.find? (fun e => containsSub (str e.2) t) with
    | some e => e.2
    | none => "Other"
  (sen.1, sen.2, persona)

/-- The lower-cased, space-joined text `" ".join([source, form_name, message]).lower()`
used by `detect_intent`. -/
def intentText (source form_name message : Str) : Str :=
  lower (source ++ 32 :: (form_name ++ 32 :: message))

/-- `detect_intent`. -/
def detect_intent (source form_name message : Str) : String :=
  let s := intentText source form_name message
  if DEMO_KW.any (fun kw => containsSub kw s) then "demo"
  else if RESOURCE_KW.any (fun kw => containsSub kw s) then "resource"
  else "other"

/-- `email_domain`: substring after the first `@`, lower-cased and stripped;
the `IndexError` of a missing `@` is caught and yields the empty string. -/
def email_domain (email : Str) : Str :=
  match afterFirstAt email with
  | some r => stripStr (lower r)
  | none => []
where
  /-- Everything after the first `@` (code point 64), if any. -/
  afterFirstAt : Str → Option Str
    | [] => none
    | c :: r => if c == 64 then some r else afterFirstAt r

/-- `is_business_email`. -/
def is_business_email (email : Str) : Bool :=
  let d := email_domain email
  !d.isEmpty && !FREE_EMAIL_DOMAINS.contains d

/-- Python truthiness choice `a or b` for strings. -/
def pyOr (a b : Str) : Str := if a = [] then b else a

/-- Split a list on a separator code point (model of `str.split(sep)`). -/
def splitOnAux (sep : Nat) : Str → Str → List Str
  | [], acc => [acc.reverse]
  | c :: r, acc => if c == sep then acc.reverse :: splitOnAux sep r [] else splitOnAux sep r (c :: acc)

/-- `splitOn sep s` splits `s` at every occurrence of `sep`. -/
def splitOn (sep : Nat) (s : Str) : List Str := splitOnAux sep s []

/-- Public-suffix snapshot used by the model of `tldextract`. -/
def KNOWN_TLDS : List Str :=
  [str "com", str "org", str "net", str "io", str "me", str "co",
   str "fr", str "be", str "ch", str "es", str "it", str "de", str "uk", str "us"]

/-- Model of the external `tldextract` library: `tldextract.extract(d).domain`,
the registrable domain's second-level label, for a snapshot of common
single-label public suffixes (multi-label suffixes such as `co.uk` are outside
the snapshot; no claim depends on them). -/
def tld_domain (d : Str) : Str :=
  match (splitOn 46 d).reverse with
  | [] => []
  | [x] => if KNOWN_TLDS.contains x then [] else x
  | last :: prev :: _ => if KNOWN_TLDS.contains last then prev else last

/-- `domain_to_company`. -/
def domain_to_company (email fallback_company : Str) : Str :=
  let d := email_domain email
  if d = [] then fallback_company
  else pyOr fallback_company (capitalizeStr (tld_domain d))

/-- `country_from_phone`: strip spaces, first dialing code (in insertion
order) that prefixes the phone wins; the dialing codes are pairwise distinct,
so the inner key lookup is the pair's own key. -/
def country_from_phone (phone : Str) : Option String :=
  let p := phone.filter (fun c => !(c == 32))
  (COUNTRY_PREFIX.find? (fun e => startsW e.2 p)).map (fun e => e.1)

/-- Is the code point an ASCII digit? -/
def isDigit (c : Nat) : Bool := 48 ≤ c && c ≤ 57

/-- Decimal value of a digit string. -/
def digitsVal (s : Str) : Nat := s.foldl (fun a c => a * 10 + (c - 48)) 0

/-- Parse an all-digit component whose length lies in `[lo, hi]`. -/
def parseNatLen (lo hi : Nat) (s : Str) : Option Nat :=
  if lo ≤ s.length ∧ s.length ≤ hi ∧ s.all isDigit then some (digitsVal s) else none

/-- Gregorian leap year. -/
def isLeap (y : Nat) : Bool := y % 4 == 0 && (y % 100 != 0 || y % 400 == 0)

/-- Days in a month. -/
def daysInMonth (y m : Nat) : Nat :=
  if m == 2 then (if isLeap y then 29 else 28)
  else if [4, 6, 9, 11].contains m then 30 else 31

/-- A calendar date accepted by `datetime`: year in `[1, 9999]`, valid month
and day (what survives both the `strptime` regex and the `datetime`
constructor). -/
def validYMD (y m d : Nat) : Bool :=
  1 ≤ y && y ≤ 9999 && 1 ≤ m && m ≤ 12 && 1 ≤ d && d ≤ daysInMonth y m

/-- Days from the civil epoch (proleptic Gregorian day number, standard
`days_from_civil` algorithm). -/
def daysFromCivil (y m d : Nat) : Int :=
  let yi : Int := if m ≤ 2 then (y : Int) - 1 else (y : Int)
  let era : Int := yi.fdiv 400
  let yoe : Int := yi - era * 400
  let mp : Int := ((m : Int) + 9) % 12
  let doy : Int := (153 * mp + 2).fdiv 5 + (d : Int) - 1
  let doe : Int := yoe * 365 + yoe.fdiv 4 - yoe.fdiv 100 + doy
  era * 146097 + doe - 719468

/-- A UTC datetime as seconds since the `daysFromCivil` epoch. -/
def dtSecs (y m d h mi s : Nat) : Int :=
  daysFromCivil y m d * 86400 + (h : Int) * 3600 + (mi : Int) * 60 + (s : Int)

/-- Parse `YYYY-MM-DD` (strptime `%Y-%m-%d`: 4-digit year, 1-2 digit month
and day, validated by the `datetime` constructor). -/
def parseYMDcore (s : Str) : Option (Nat × Nat × Nat) :=
  match splitOn 45 s with
  | [ys, ms, ds] =>
    match parseNatLen 4 4 ys, parseNatLen 1 2 ms, parseNatLen 1 2 ds with
    | some y, some m, some d => if validYMD y m d then some (y, m, d) else none
    | _, _, _ => none
  | _ => none

/-- Parse `DD/MM/YYYY` (strptime `%d/%m/%Y`). -/
def parseDMYcore (s : Str) : Option (Nat × Nat × Nat) :=
  match splitOn 47 s with
  | [ds, ms, ys] =>
    match parseNatLen 1 2 ds, parseNatLen 1 2 ms, parseNatLen 4 4 ys with
    | some d, some m, some y => if validYMD y m d then some (y, m, d) else none
    | _, _, _ => none
  | _ => none

/-- Parse `HH:MM:SS` (strptime `%H:%M:%S`, ranges as accepted end to end by
`strptime` plus the `datetime` constructor). -/
def parseHMScore (s : Str) : Option (Nat × Nat × Nat) :=
  match splitOn 58 s with
  | [hs, ms, ss] =>
    match parseNatLen 1 2 hs, parseNatLen 1 2 ms, parseNatLen 1 2 ss with
    | some h, some mi, some sec =>
      if h ≤ 23 ∧ mi ≤ 59 ∧ sec ≤ 59 then some (h, mi, sec) else none
    | _, _, _ => none
  | _ => none

/-- Parse `HH:MM` (strptime `%H:%M`). -/
def parseHMcore (s : Str) : Option (Nat × Nat) :=
  match splitOn 58 s with
  | [hs, ms] =>
    match parseNatLen 1 2 hs, parseNatLen 1 2 ms with
    | some h, some mi => if h ≤ 23 ∧ mi ≤ 59 then some (h, mi) else none
    | _, _ => none
  | _ => none

/-- Format `%Y-%m-%d`, as seconds since the epoch. -/
def parseFmt1 (s : Str) : Option Int :=
  (parseYMDcore s).map (fun e => dtSecs e.1 e.2.1 e.2.2 0 0 0)

/-- Format `%Y-%m-%d %H:%M:%S`. -/
def parseFmt2 (s : Str) : Option Int :=
  match splitOn 32 s with
  | [ds, ts] =>
    match parseYMDcore ds, parseHMScore ts with
    | some d, some t => some (dtSecs d.1 d.2.1 d.2.2 t.1 t.2.1 t.2.2)
    | _, _ => none
  | _ => none

/-- Format `%d/%m/%Y`. -/
def parseFmt3 (s : Str) : Option Int :=
  (parseDMYcore s).map (fun e => dtSecs e.2.2 e.2.1 e.1 0 0 0)

/-- Format `%d/%m/%Y %H:%M`. -/
def parseFmt4 (s : Str) : Option Int :=
  match splitOn 32 s with
  | [ds, ts] =>
    match parseDMYcore ds, parseHMcore ts with
    | some d, some t => some (dtSecs d.2.2 d.2.1 d.1 t.1 t.2 0)
    | _, _ => none
  | _ => none

/-- `days_since`: try the four formats in order; on success, whole days
(`timedelta.days`, floor division) between `now` and the parsed UTC instant,
floored at 0; `None` when empty or no format matches.  `datetime.now` is the
explicit parameter `now`. -/
def days_since (dt_str : Str) (now : Int) : Option Int :=
  if dt_str = [] then none
  else
    match parseFmt1 dt_str with
    | some t => some (max 0 ((now - t).fdiv 86400))
    | none =>
      match parseFmt2 dt_str with
      | some t => some (max 0 ((now - t).fdiv 86400))
      | none =>
        match parseFmt3 dt_str with
        | some t => some (max 0 ((now - t).fdiv 86400))
        | none =>
          match parseFmt4 dt_str with
          | some t => some (max 0 ((now - t).fdiv 86400))
          | none => none

/-- Weight of a source in `SOURCE_WEIGHTS` (`dict.get(s, 0)`). -/
def sourceWeight (s : Str) : Int :=
  ((SOURCE_WEIGHTS.find? (fun e => e.1 == s)).map (fun e => e.2)).getD 0

/-- `score_fit` step 1: `base = {"demo": 65, "resource": 50, "other": 42}.get(intent, 42)`. -/
def intent_base (intent : String) : Int :=
  if intent = "demo" then 65 else if intent = "resource" then 50 else 42

/-- `score_fit` step: `base += 8 * seniority_score`. -/
def seniority_pts (seniority_score : Int) : Int := 8 * seniority_score

/-- `score_fit` step: `if persona in TARGET_PERSONAS: base += 6`. -/
def persona_pts (persona : String) : Int := if persona ∈ TARGET_PERSONAS then 6 else 0

/-- `score_fit` step: `base += 5 if is_business_email(email) else -4`. -/
def email_pts (email : Str) : Int := if is_business_email email then 5 else -4

/-- `score_fit` step: `co = domain_to_company(email, company_name or "");
if co and len(co) >= 2: base += 3`. -/
def company_pts (email company_name : Str) : Int :=
  let co := domain_to_company email company_name
  if co ≠ [] ∧ 2 ≤ co.length then 3 else 0

/-- `score_fit` step: `base += SOURCE_WEIGHTS.get((source or "").lower(), 0)`. -/
def source_pts (source : Str) : Int := sourceWeight (lower source)

/-- `score_fit` step: `if utm_source: base += SOURCE_WEIGHTS.get(utm_source.lower(), 0)`. -/
def utm_pts (utm_source : Str) : Int :=
  if utm_source ≠ [] then sourceWeight (lower utm_source) else 0

/-- `score_fit` step: `if any(kw in m for kw in URGENCY_KW): base += 6`. -/
def urgency_pts (message : Str) : Int :=
  if URGENCY_KW.any (fun kw => containsSub kw (lower message)) then 6 else 0

/-- `score_fit` step: `if ctry and ctry.upper() in PRIORITY_COUNTRIES: base += 3`
(the table's country codes are already uppercase). -/
def country_pts (phone : Str) : Int :=
  match country_from_phone phone with
  | some ctry => if ctry ∈ PRIORITY_COUNTRIES then 3 else 0
  | none => 0

/-- `score_fit` step: the recency bonus/penalty from `days_since(created_at)`. -/
def recency_pts (created_at : Str) (now : Int) : Int :=
  match days_since created_at now with
  | some d => if d ≤ 1 then 6 else if d ≤ 7 then 2 else if 30 < d then -4 else 0
  | none => 0

/-- `score_fit`: the sequential `base += ...` accumulation is embedded as the
sum of the independent per-step contributions (no step reads the running
total), clamped at the end by `max(0, min(95, base))`.  `utm_source=None` and
`created_at=None` are represented by the empty string (the code only tests
their truthiness); `now` is the model of `datetime.now` inside `days_since`. -/
def score_fit (intent : String) (seniority_score : Int) (persona : String)
    (email phone company_name message source utm_source created_at : Str)
    (now : Int) : Int :=
  max 0 (min 95 (intent_base intent + seniority_pts seniority_score +
    persona_pts persona + email_pts email + company_pts email company_name +
    source_pts source + utm_pts utm_source + urgency_pts message +
    country_pts phone + recency_pts created_at now))

/-- `suggest_workflow`. -/
def suggest_workflow (intent : String) (score : Int) : String :=
  if intent = "demo" ∧ 68 ≤ score then "Réponse rapide"
  else if intent = "resource" ∧ 58 ≤ score then "Nurturing doux"
  else "Safe hours"

/-- One input row of the table (all fields strings, absent fields are the
empty string, as produced by `str(row.get(..., "") or "")`). -/
structure Row where
  job_title : Str := []
  message : Str := []
  source : Str := []
  utm_source : Str := []
  company_name : Str := []
  phone : Str := []
  email : Str := []
  created_at : Str := []
  first_name : Str := []
  last_name : Str := []
  form_name : Str := []
deriving DecidableEq, Repr

/-- One classified lead record. -/
structure Lead where
  name : Str
  email : Str
  company : Str
  job_title : Str
  persona : String
  seniority : String
  intent : String
  score : Int
  workflow_suggested : String
  country : Option String
  business_email : Bool
deriving DecidableEq, Repr

/-- The body of the `classify_leads` loop for one row. -/
def classify_one (now : Int) (row : Row) : Lead :=
  let sen := parse_title row.job_title
  let intent := detect_intent row.source row.form_name row.message
  let score := score_fit intent sen.2.1 sen.2.2 row.email row.phone row.company_name
    row.message row.source row.utm_source row.created_at now
  { name := stripStr (row.first_name ++ 32 :: row.last_name),
    email := row.email,
    company := pyOr row.company_name (domain_to_company row.email []),
    job_title := row.job_title,
    persona := sen.2.2,
    seniority := sen.1,
    intent := intent,
    score := score,
    workflow_suggested := suggest_workflow intent score,
    country := country_from_phone row.phone,
    business_email := is_business_email row.email }

/-- `classify_leads`. -/
def classify_leads (now : Int) (rows : List Row) : List Lead :=
  rows.map (classify_one now)

/-- Round a rational to the nearest integer, halves to even (model of
Python `round` on the exact value). -/
def roundHalfEven (x : ℚ) : ℤ :=
  let f := ⌊x⌋
  let r := x - (f : ℚ)
  if r < 1 / 2 then f
  else if 1 / 2 < r then f + 1
  else if f % 2 = 0 then f else f + 1

/-- Model of Python `round(x, k)`. -/
def roundTo (k : Nat) (x : ℚ) : ℚ :=
  (roundHalfEven (x * 10 ^ k) : ℚ) / 10 ^ k

/-- Increment the count of a key in an insertion-ordered map (model of a
Python dict updated with `d[k] = d.get(k, 0) + 1`). -/
def bump (k : String) : List (String × Nat) → List (String × Nat)
  | [] => [(k, 1)]
  | (k2, n) :: r => if k2 = k then (k2, n + 1) :: r else (k2, n) :: bump k r

/-- `dict.get(k, 0)` on the insertion-ordered map. -/
def getCount (k : String) (d : List (String × Nat)) : Nat :=
  ((d.find? (fun e => e.1 == k)).map (fun e => e.2)).getD 0

/-- First key of maximal count, scanning in insertion order (model of Python
`max(d, key=d.get)`, which keeps the earliest key on ties). -/
def argmaxAux (k : String) (v : Nat) : List (String × Nat) → String
  | [] => k
  | (k2, v2) :: r => if v < v2 then argmaxAux k2 v2 r else argmaxAux k v r

/-- `max(d, key=d.get)` when the map is non-empty. -/
def argmaxFirst : List (String × Nat) → Option String
  | [] => none
  | (k, v) :: r => some (argmaxAux k v r)

/-- The summary record returned by `summarize`.  Dicts are insertion-ordered
key/count lists; floats are rationals. -/
structure Summary where
  leads_total : Nat
  leads_hot : Nat
  response_rate : ℚ
  avg_score : ℚ
  business_email_ratio : ℚ
  intent_distribution : List (String × Nat)
  persona_distribution : List (String × Nat)
  seniority_distribution : List (String × Nat)
  country_distribution : List (String × Nat)
  workflows_distribution : List (String × Nat)
  freshness_buckets : List (String × Option Nat)
  workflow_status : List (String × Nat)
  insights : List String
deriving DecidableEq, Repr

/-- `summarize`.  The draw `random.uniform(0.22, 0.35)` is the explicit
parameter `u`; every lead's score is an `Int`, so the `isinstance` filter on
scores keeps every lead. -/
def summarize (u : ℚ) (leads : List Lead) : Summary :=
  let total := leads.length
  let hot := leads.countP (fun l => decide (70 ≤ l.score))
  let resp_rate := roundTo 2 u
  let intent_dist := leads.foldl (fun d l => bump l.intent d) []
  let persona_dist := leads.foldl (fun d l => bump l.persona d) []
  let seniority_dist := leads.foldl (fun d l => bump l.seniority d) []
  let country_dist := leads.foldl (fun d l =>
    match l.country with
    | some c => bump c d
    | none => d) []
  let workflow_dist := leads.foldl (fun d l =>
    if l.workflow_suggested = "" then d else bump l.workflow_suggested d) []
  let business_emails := leads.countP (fun l => l.business_email)
  let scores := leads.map (fun l => l.score)
  let avg_score : ℚ :=
    if scores.length ≠ 0 then roundTo 1 ((scores.sum : ℚ) / (scores.length : ℚ)) else 0
  let business_ratio : ℚ :=
    if 0 < total then roundTo 1 (((business_emails : ℚ) / (total : ℚ)) * 100) else 0
  let insights :=
    (if 65 ≤ avg_score then ["Qualité moyenne élevée des leads (score moyen ≥ 65)."] else []) ++
    (if getCount "resource" intent_dist < getCount "demo" intent_dist then
      ["Plus de demandes démo que de téléchargements de ressources."] else []) ++
    (if 70 ≤ business_ratio then ["Majorité d’emails professionnels (≥ 70%)."] else []) ++
    (match argmaxFirst persona_dist with
     | some p => ["Persona dominant détecté : " ++ p ++ "."]
     | none => []) ++
    (match argmaxFirst country_dist with
     | some c => ["Flux principal en " ++ c ++ "."]
     | none => [])
  { leads_total := total,
    leads_hot := hot,
    response_rate := resp_rate,
    avg_score := avg_score,
    business_email_ratio := business_ratio,
    intent_distribution := intent_dist,
    persona_distribution := persona_dist,
    seniority_distribution := seniority_dist,
    country_distribution := country_dist,
    workflows_distribution := workflow_dist,
    freshness_buckets := [("last_24h", none), ("last_7d", none), ("last_30d", none), ("older", none)],
    workflow_status := [("SMS envoyé", min hot (max 5 (hot / 2))),
                        ("Email IA envoyé", max 3 (total / 4)),
                        ("Réponses reçues", max 1 (total / 20))],
    insights := if insights = [] then ["Analyse initiale effectuée."] else insights }

/-- The end-to-end row of the spec's scenario: `{job_title: "VP Marketing",
email: "j@bigco.com", phone: "+33612345678", message: "please call me asap",
source: "linkedin", created_at: today}`. -/
def row4 : Row :=
  { job_title := str "VP Marketing", email := str "j@bigco.com",
    phone := str "+33612345678", message := str "please call me asap",
    source := str "linkedin", created_at := str "2026-10-12" }

/-- A `now` instant falling on the same UTC day as `row4.created_at`
(so `days_since` yields 0, the scenario's recency case). -/
def now4 : Int := dtSecs 2026 10 12 12 0 0

/-- Sample row used by permutation witnesses. -/
def rowA : Row := { email := str "ana@acme.io", job_title := str "CFO" }

/-- Second sample row used by permutation witnesses. -/
def rowB : Row := { email := str "bob@gmail.com", message := str "need a demo" }

/-! ## Helper lemmas -/

theorem startsW_mem {n h : Str} (hs : startsW n h = true) : ∀ c ∈ n, c ∈ h := by
  induction n generalizing h with
  | nil => intro c hc; simp at hc
  | cons x xs ih =>
    cases h with
    | nil => simp [startsW] at hs
    | cons y ys =>
      simp only [startsW, Bool.and_eq_true, beq_iff_eq] at hs
      intro c hc
      rcases List.mem_cons.mp hc with rfl | hc2
      · exact hs.1 ▸ List.mem_cons_self _ _
      · exact List.mem_cons_of_mem _ (ih hs.2 c hc2)

theorem containsSub_mem {n h : Str} (hc : containsSub n h = true) : ∀ c ∈ n, c ∈ h := by
  induction h with
  | nil =>
    simp only [containsSub, List.isEmpty_iff] at hc
    subst hc
    intro c hcn
    simp at hcn
  | cons y ys ih =>
    simp only [containsSub, Bool.or_eq_true] at hc
    rcases hc with h1 | h2
    · exact startsW_mem h1
    · intro c hcn
      exact List.mem_cons_of_mem _ (ih h2 c hcn)

theorem lower_no_upper {s : Str} {c : Nat} (h : c ∈ lower s) : ¬(65 ≤ c ∧ c ≤ 90) := by
  simp only [lower, List.mem_map] at h
  obtain ⟨c2, _, rfl⟩ := h
  unfold lowerC
  split <;> omega

theorem contains_upper {n : Str} (t : Str) (h : ∃ c ∈ n, 65 ≤ c ∧ c ≤ 90) :
    containsSub n (lower t) = false := by
  obtain ⟨c, hc, hup⟩ := h
  cases hb : containsSub n (lower t) with
  | false => rfl
  | true => exact absurd hup (lower_no_upper (containsSub_mem hb c hc))

theorem persona_labels_upper : ∀ e ∈ PERSONA_MAP, ∃ c ∈ str e.2, 65 ≤ c ∧ c ≤ 90 := by
  decide

theorem persona_find_none (title : Str) :
    PERSONA_MAP.find? (fun e => containsSub (str e.2) (lower title)) = none := by
  rw [List.find?_eq_none]
  intro e he hx
  rw [contains_upper title (persona_labels_upper e he)] at hx
  cases hx

theorem sourceWeight_nonneg (s : Str) : 0 ≤ sourceWeight s := by
  unfold sourceWeight
  rcases hf : SOURCE_WEIGHTS.find? (fun e => e.1 == s) with _ | e
  · rw [hf]; simp
  · rw [hf]
    have hm := List.mem_of_find?_eq_some hf
    simp only [SOURCE_WEIGHTS] at hm
    fin_cases hm <;> simp

theorem intent_base_lower (intent : String) : 42 ≤ intent_base intent := by
  unfold intent_base
  split_ifs <;> omega

theorem persona_pts_nonneg (persona : String) : 0 ≤ persona_pts persona := by
  unfold persona_pts
  split_ifs <;> omega

theorem email_pts_lower (email : Str) : -4 ≤ email_pts email := by
  unfold email_pts
  split_ifs <;> omega

theorem company_pts_nonneg (email company_name : Str) : 0 ≤ company_pts email company_name := by
  simp only [company_pts]
  split_ifs <;> omega

theorem utm_pts_nonneg (utm : Str) : 0 ≤ utm_pts utm := by
  unfold utm_pts
  split_ifs with h
  · exact sourceWeight_nonneg _
  · omega

theorem urgency_pts_nonneg (message : Str) : 0 ≤ urgency_pts message := by
  unfold urgency_pts
  split_ifs <;> omega

theorem country_pts_nonneg (phone : Str) : 0 ≤ country_pts phone := by
  unfold country_pts
  cases country_from_phone phone with
  | none => exact le_refl 0
  | some c =>
    show (0 : Int) ≤ if c ∈ PRIORITY_COUNTRIES then (3 : Int) else 0
    split_ifs <;> omega

theorem recency_pts_lower (created : Str) (now : Int) : -4 ≤ recency_pts created now := by
  unfold recency_pts
  cases days_since created now with
  | none => show (-4 : Int) ≤ 0; omega
  | some d =>
    show (-4 : Int) ≤ if d ≤ 1 then (6 : Int) else if d ≤ 7 then 2 else if 30 < d then -4 else 0
    split_ifs <;> omega

/-! ## Claims -/

/-- C1: for every combination of inputs (any intent string, any integer
seniority score, any persona, email, phone, company name, message, source,
utm source, created-at string, and any current instant), `score_fit` returns
an integer in the interval `[0, 95]`. -/
theorem C1_score_fit_clamped (intent : String) (sscore : Int) (persona : String)
    (email phone company message source utm created : Str) (now : Int) :
    0 ≤ score_fit intent sscore persona email phone company message source utm created now ∧
    score_fit intent sscore persona email phone company message source utm created now ≤ 95 := by
  simp only [score_fit]
  constructor
  · exact le_max_left 0 _
  · exact max_le (by norm_num) (min_le_left 95 _)

/-- C3: for every input title, the persona component returned by
`parse_title` is `"Other"`: the persona scan tests the persona label text —
which always contains an uppercase letter — against the lower-cased title,
so no persona entry can ever match. -/
theorem C3_persona_always_other (title : Str) : (parse_title title).2.2 = "Other" := by
  simp only [parse_title, persona_find_none title]

/-- C2: `parse_title` at the empty string and at `"CEO & Founder"`, evaluated
on the code as written: the empty title yields the defaults, but the persona
of `"CEO & Founder"` is `"Other"`, not the specified `"CEO"`, because the
persona loop searches the capitalized label instead of the regex pattern. -/
theorem C2_parse_title_eval :
    parse_title (str "") = ("other", 0, "Other") ∧
    parse_title (str "CEO & Founder") = ("exec", 3, "Other") := by
  decide

/-- C4 counterexample: on the end-to-end scenario row, the classified lead
does not have persona `"Marketing"`, intent `"other"`, and workflow
`"Safe hours"` as the claim states. -/
theorem C4_counterexample :
    ¬ ((classify_one now4 row4).persona = "Marketing" ∧
       (classify_one now4 row4).intent = "other" ∧
       (classify_one now4 row4).workflow_suggested = "Safe hours") := by
  decide

/-- C4 (amended): on the scenario row, the classified lead has seniority
`"exec"` (weight 3), persona `"Other"` (the persona scan never matches),
intent `"demo"` (the message contains the demo keyword `"call"`), score 95
(the component sum 117 clamped to 95), and workflow `"Réponse rapide"`. -/
theorem C4_amended_eval :
    classify_leads now4 [row4] =
    [{ name := [], email := str "j@bigco.com", company := str "Bigco",
       job_title := str "VP Marketing", persona := "Other", seniority := "exec",
       intent := "demo", score := 95, workflow_suggested := "Réponse rapide",
       country := some "FR", business_email := true }] := by
  decide

/-- C5 counterexample: on the empty list, `response_rate` is the rounded
random placeholder draw (here the draw 0.22), not 0.0. -/
theorem C5_counterexample : (summarize (11 / 50) []).response_rate ≠ 0 := by
  have h : (summarize (11 / 50 : ℚ) []).response_rate = roundTo 2 (11 / 50) := rfl
  rw [h]
  norm_num [roundTo, roundHalfEven]

/-- C5 (amended): `summarize` returns `leads_total` equal to the length of
the input list for every batch; `response_rate` is always the rounded random
placeholder draw; on the empty list, `avg_score` and `business_email_ratio`
are 0.0 and the insights list is exactly the default placeholder. -/
theorem C5_amended_summarize (u : ℚ) (leads : List Lead) :
    (summarize u leads).leads_total = leads.length ∧
    (summarize u leads).response_rate = roundTo 2 u ∧
    (summarize u []).avg_score = 0 ∧
    (summarize u []).business_email_ratio = 0 ∧
    (summarize u []).insights = ["Analyse initiale effectuée."] :=
  ⟨rfl, rfl, rfl, rfl, rfl⟩

/-- C6: whenever the space-joined lower-cased concatenation of source, form
name, and message contains both a demo keyword and a resource keyword,
`detect_intent` returns `"demo"`; in particular on
`"book a demo and download our ebook"`. -/
theorem C6_demo_priority :
    (∀ source form_name message,
      (∃ kw ∈ DEMO_KW, containsSub kw (intentText source form_name message) = true) →
      (∃ kw ∈ RESOURCE_KW, containsSub kw (intentText source form_name message) = true) →
      detect_intent source form_name message = "demo") ∧
    detect_intent [] [] (str "book a demo and download our ebook") = "demo" := by
  constructor
  · intro s f m h1 _
    obtain ⟨kw, hkw, hc⟩ := h1
    have hany : DEMO_KW.any (fun kw => containsSub kw (intentText s f m)) = true :=
      List.any_eq_true.mpr ⟨kw, hkw, hc⟩
    simp [detect_intent, hany]
  · decide

/-- C6 witness: the priority statement applied at a concrete text containing
the demo keyword `"call"` and the resource keyword `"whitepaper"`. -/
theorem C6_witness :
    detect_intent (str "web") [] (str "book a call about the whitepaper") = "demo" :=
  C6_demo_priority.1 (str "web") [] (str "book a call about the whitepaper")
    ⟨str "call", by decide, by decide⟩ ⟨str "whitepaper", by decide, by decide⟩

/-- C7: a non-empty fallback company is returned unchanged whenever the email
has a domain; when the email has no domain the fallback is returned
unchanged; with an empty fallback the capitalized second-level label of the
registrable domain is returned; and the two concrete examples. -/
theorem C7_domain_to_company :
    (∀ email fallback, email_domain email ≠ [] → fallback ≠ [] →
       domain_to_company email fallback = fallback) ∧
    (∀ email fallback, email_domain email = [] →
       domain_to_company email fallback = fallback) ∧
    (∀ email, email_domain email ≠ [] →
       domain_to_company email [] = capitalizeStr (tld_domain (email_domain email))) ∧
    domain_to_company (str "a@acme.io") [] = str "Acme" ∧
    domain_to_company (str "a@acme.io") (str "Acme Corp") = str "Acme Corp" := by
  refine ⟨?_, ?_, ?_, by decide, by decide⟩
  · intro e f h1 h2
    simp [domain_to_company, pyOr, h1, h2]
  · intro e f h1
    simp [domain_to_company, h1]
  · intro e h1
    simp [domain_to_company, pyOr, h1]

/-- C7 witness: the fallback-passthrough statement applied at a concrete
email with a domain and a concrete non-empty fallback. -/
theorem C7_witness : domain_to_company (str "x@y.io") (str "Z") = str "Z" :=
  C7_domain_to_company.1 (str "x@y.io") (str "Z") (by decide) (by decide)

/-- C8: the normalizers and the scoring function are total and degrade
gracefully: an email without `@` yields the empty domain; `days_since` yields
`none` on the empty string and whenever no format parses; `parse_title` on
the empty title yields the default triple; and `score_fit` on thoroughly
malformed inputs still returns a clamped integer (here 0). -/
theorem C8_graceful_degradation :
    (∀ email, 64 ∉ email → email_domain email = []) ∧
    (∀ now, days_since [] now = none) ∧
    (∀ s now, parseFmt1 s = none → parseFmt2 s = none → parseFmt3 s = none →
       parseFmt4 s = none → days_since s now = none) ∧
    parse_title [] = ("other", 0, "Other") ∧
    score_fit "weird" (-5) "???" (str "not-an-email") (str "abc") []
      (str "??") (str "bad") [] (str "13/13/2026") 0 = 0 := by
  refine ⟨?_, fun _ => rfl, ?_, by decide, by decide⟩
  · intro e h
    have hafter : email_domain.afterFirstAt e = none := by
      induction e with
      | nil => rfl
      | cons c r ih =>
        have hne : c ≠ 64 := fun hceq => h (hceq ▸ List.mem_cons_self c r)
        have hr : (64 : Nat) ∉ r := fun hm => h (List.mem_cons_of_mem _ hm)
        simp [email_domain.afterFirstAt, hne, ih hr]
    simp [email_domain, hafter]
  · intro s now h1 h2 h3 h4
    by_cases hs : s = []
    · simp [days_since, hs]
    · simp [days_since, hs, h1, h2, h3, h4]

/-- C8 witness: the empty-domain statement applied at a concrete string
without an `@`. -/
theorem C8_witness : email_domain (str "plainaddress") = [] :=
  C8_graceful_degradation.1 (str "plainaddress") (by decide)

/-- C9: batch classification is order-independent: permuted input rows give
a permutation (the same multiset) of classified leads, and each output record
is the image of its own input row under `classify_one`. -/
theorem C9_perm_invariant (now : Int) (rows rows2 : List Row)
    (h : rows.Perm rows2) :
    (classify_leads now rows).Perm (classify_leads now rows2) ∧
    classify_leads now rows = rows.map (classify_one now) :=
  ⟨h.map (classify_one now), rfl⟩

/-- C9 witness: the permutation statement applied to two concrete rows in
both orders. -/
theorem C9_witness :
    (classify_leads 0 [rowA, rowB]).Perm (classify_leads 0 [rowB, rowA]) :=
  (C9_perm_invariant 0 [rowA, rowB] [rowB, rowA] (List.Perm.swap rowB rowA [])).1

/-- C10: whenever the seniority score is non-negative, `score_fit` returns at
least 34 (base 42, worst-case business-email penalty 4 and recency penalty 4,
all bonuses absent), so the output in fact lies in `[34, 95]` and the lower
clamp bound 0 is never binding. -/
theorem C10_score_fit_lower_bound (intent : String) (sscore : Int) (persona : String)
    (email phone company message source utm created : Str) (now : Int)
    (h : 0 ≤ sscore) :
    34 ≤ score_fit intent sscore persona email phone company message source utm created now ∧
    score_fit intent sscore persona email phone company message source utm created now ≤ 95 := by
  have h1 := intent_base_lower intent
  have h2 := persona_pts_nonneg persona
  have h3 := email_pts_lower email
  have h4 := company_pts_nonneg email company
  have h5 := sourceWeight_nonneg (lower source)
  have h6 := utm_pts_nonneg utm
  have h7 := urgency_pts_nonneg message
  have h8 := country_pts_nonneg phone
  have h9 := recency_pts_lower created now
  simp only [score_fit, seniority_pts, source_pts]
  omega

/-- C10 witness: the bound applied at seniority score 0 with all other
signals absent (the returned score is 38). -/
theorem C10_witness :
    (0 : Int) ≤ 0 ∧
    (34 ≤ score_fit "other" 0 "Other" [] [] [] [] [] [] [] 0 ∧
     score_fit "other" 0 "Other" [] [] [] [] [] [] [] 0 ≤ 95) :=
  ⟨le_refl 0, C10_score_fit_lower_bound "other" 0 "Other" [] [] [] [] [] [] [] 0 (by decide)⟩

end SmartCaller
